import Mathlib

/-!
Verification development for the romaniarunning static-site scripts.

The JavaScript sources are embedded shallowly: every function is translated
into a computable Lean definition over explicit data. JavaScript strings are
Lean strings compared through their character lists (code-point order, which
agrees with the UTF-16 code-unit order on all characters these pages handle),
JavaScript numbers arising from parseInt are Int, missing object properties
are Option.none, and the ECMAScript stable Array.prototype.sort with a
consistent comparator is modelled by the stable insertion sort, which
produces the same output as any stable sort for such comparators.
-/

/-- Whitespace characters skipped by the ECMAScript parseInt before the
number begins (the common ones: space, tab, line feed, carriage return). -/
def jsWhitespace (c : Char) : Bool :=
  c == ' ' || c == '\t' || c == '\n' || c == '\r'

/-- Value of a character as a hexadecimal digit, none when it is not one. -/
def hexDigitVal (c : Char) : Option Nat :=
  if '0' ≤ c ∧ c ≤ '9' then some (c.toNat - '0'.toNat)
  else if 'a' ≤ c ∧ c ≤ 'f' then some (c.toNat - 'a'.toNat + 10)
  else if 'A' ≤ c ∧ c ≤ 'F' then some (c.toNat - 'A'.toNat + 10)
  else none

/-- Whether a character is a digit of the given radix (10 or 16 here). -/
def isRadixDigit (base : Nat) (c : Char) : Bool :=
  match hexDigitVal c with
  | some v => v < base
  | none => false

/-- Numeric value of a digit list in the given radix. -/
def digitsToNat (base : Nat) (ds : List Char) : Nat :=
  ds.foldl (fun n c => n * base + ((hexDigitVal c).getD 0)) 0

/-- Digit phase of parseInt: take the longest digit run of the radix;
none (NaN) when there is no digit at all. -/
def parseIntDigits (sign : Int) (base : Nat) (cs : List Char) : Option Int :=
  let ds := cs.takeWhile (isRadixDigit base)
  if ds.isEmpty then none
  else some (sign * (digitsToNat base ds : Int))

/-- Radix phase of parseInt with the default (undefined) radix argument:
a leading 0x or 0X selects base 16, otherwise base 10. -/
def parseIntSigned (sign : Int) (cs : List Char) : Option Int :=
  match cs with
  | '0' :: 'x' :: t => parseIntDigits sign 16 t
  | '0' :: 'X' :: t => parseIntDigits sign 16 t
  | _ => parseIntDigits sign 10 cs

/-- ECMAScript parseInt(string) with no radix argument: skip leading
whitespace, read an optional sign, detect a hex prefix, parse the longest
digit run; none models the NaN result. -/
def parseIntJS (s : String) : Option Int :=
  match s.data.dropWhile jsWhitespace with
  | '-' :: t => parseIntSigned (-1) t
  | '+' :: t => parseIntSigned 1 t
  | cs => parseIntSigned 1 cs

/-- The idiom parseInt(v) combined with a zero fallback for NaN, written in the
sources as parseInt(v) with a trailing or-zero. A parsed 0 is falsy and also
yields 0, so the fallback collapses to getD. -/
def parseIntOr0 (s : String) : Int :=
  (parseIntJS s).getD 0

/-- Auxiliary splitter: accumulates the current field in reverse. -/
def splitCharAux (sep : Char) : List Char → List Char → List String
  | [], acc => [String.mk acc.reverse]
  | c :: cs, acc =>
    if c = sep then String.mk acc.reverse :: splitCharAux sep cs []
    else splitCharAux sep cs (c :: acc)

/-- ECMAScript String.prototype.split with a one-character separator:
splits at every occurrence, keeping empty fields; the empty string yields
a single empty field. -/
def jsSplit (s : String) (sep : Char) : List String :=
  splitCharAux sep s.data []

/-- Code-point lexicographic order on character lists, the order the
JavaScript string comparison operators use (as code units; identical on the
basic-plane characters these pages handle). -/
def lexLt : List Char → List Char → Bool
  | [], [] => false
  | [], _ :: _ => true
  | _ :: _, [] => false
  | a :: as, b :: bs =>
    if a.toNat < b.toNat then true
    else if b.toNat < a.toNat then false
    else lexLt as bs

/-- Test used by sortCompetitions for year columns, from
column.startsWith of the literal year underscore. -/
def startsWithYear (column : String) : Bool :=
  "year_".data.isPrefixOf column.data

/-- String.prototype.toLowerCase restricted to the characters the pages
handle: ASCII letters plus the five uppercase Romanian diacritics appearing
in the romanianSortKey replacement table; all other characters pass through
unchanged. -/
def jsToLowerChar (c : Char) : Char :=
  if c = 'Ă' then 'ă'
  else if c = 'Â' then 'â'
  else if c = 'Î' then 'î'
  else if c = 'Ș' then 'ș'
  else if c = 'Ț' then 'ț'
  else c.toLower

/-- Single-character replacement table of romanianSortKey after lowering.
The source applies the five global regex replacements sequentially; since
every pattern is a single character and no replacement string contains any
pattern character, that equals this one-pass character map. -/
def romanianReplaceChar (c : Char) : List Char :=
  if c = 'ă' then ['a', '~', '1']
  else if c = 'â' then ['a', '~', '2']
  else if c = 'î' then ['i', '~', '1']
  else if c = 'ș' then ['s', '~', '1']
  else if c = 'ț' then ['t', '~', '1']
  else [c]

/-- romanianSortKey from the all-competitions script: falsy input gives the
empty string; otherwise lower-case the text and replace each Romanian
diacritic with its base letter followed by a tilde marker. -/
def romanianSortKey (text : String) : String :=
  if text = "" then ""
  else String.mk (((text.data.map jsToLowerChar).map romanianReplaceChar).flatten)

/-- The fixed twelve-entry month table of dateToSortableNumber; an
unrecognized name is an undefined lookup, squashed to 0 by the or-zero. -/
def monthsTable (m : String) : Nat :=
  if m = "Jan" then 1
  else if m = "Feb" then 2
  else if m = "Mar" then 3
  else if m = "Apr" then 4
  else if m = "May" then 5
  else if m = "Jun" then 6
  else if m = "Jul" then 7
  else if m = "Aug" then 8
  else if m = "Sep" then 9
  else if m = "Oct" then 10
  else if m = "Nov" then 11
  else if m = "Dec" then 12
  else 0

/-- dateToSortableNumber from the all-competitions script: an empty string
is 0; the string is split at spaces expecting exactly two parts, the second
split at dashes expecting exactly two parts; the result is month times 100
plus day, where the day is parseInt with zero fallback and the month comes
from the table with zero fallback. -/
def dateToSortableNumber (dateStr : String) : Int :=
  if dateStr = "" then 0
  else
    match jsSplit dateStr ' ' with
    | [_, dayMonth] =>
      match jsSplit dayMonth '-' with
      | [d, m] => (monthsTable m : Int) * 100 + parseIntOr0 d
      | _ => 0
    | _ => 0

/-- Competition record of the all-competitions document: the fields the
three tables read. A missing JSON property is none; the scripts coerce a
missing value to the empty string before use. -/
structure Competition where
  id : Option String
  name : Option String
  location : Option String
  county : Option String
  year_2026 : Option String
  year_2025 : Option String
  year_2024 : Option String
  year_2023 : Option String
deriving DecidableEq

/-- Dynamic property access a[column] on a competition record: a known
column name reads its field, any other identifier is an undefined lookup. -/
def getCol (a : Competition) (column : String) : Option String :=
  if column = "id" then a.id
  else if column = "name" then a.name
  else if column = "location" then a.location
  else if column = "county" then a.county
  else if column = "year_2026" then a.year_2026
  else if column = "year_2025" then a.year_2025
  else if column = "year_2024" then a.year_2024
  else if column = "year_2023" then a.year_2023
  else none

/-- Comparator body of sortCompetitions: the value of each side is
a[column] with empty-string fallback; the id column compares parseInt
values numerically with direction, year columns compare
dateToSortableNumber values with the sentinel checks before the
directional compare, and all other columns compare romanianSortKey
strings lexicographically with direction. -/
def compareCompetitions (column : String) (ascending : Bool)
    (a b : Competition) : Int :=
  let valA := (getCol a column).getD ""
  let valB := (getCol b column).getD ""
  if column = "id" then
    let nA := parseIntOr0 valA
    let nB := parseIntOr0 valB
    if ascending then nA - nB else nB - nA
  else if startsWithYear column then
    let dateA := dateToSortableNumber valA
    let dateB := dateToSortableNumber valB
    if dateA = 0 ∧ dateB = 0 then 0
    else if dateA = 0 then 1
    else if dateB = 0 then -1
    else if ascending then dateA - dateB else dateB - dateA
  else
    let keyA := romanianSortKey valA
    let keyB := romanianSortKey valB
    if lexLt keyA.data keyB.data then (if ascending then -1 else 1)
    else if lexLt keyB.data keyA.data then (if ascending then 1 else -1)
    else 0

/-- ECMAScript Array.prototype.sort with a comparator. The standard requires
the sort to be stable; with a consistent comparator every stable sort
produces the same array, modelled here by the stable insertion sort on the
relation comparator-result at most zero. -/
def jsSort (cmp : α → α → Int) (l : List α) : List α :=
  List.insertionSort (fun a b => cmp a b ≤ 0) l

/-- Spread copy of an array, as in bracket-dots-data: a fresh array object
with the same contents. -/
def spreadCopy (l : List α) : List α := l

/-- sortCompetitions: copies the input array with spread, then sorts the
copy in place with the column comparator and returns it. -/
def sortCompetitions (data : List Competition) (column : String)
    (ascending : Bool) : List Competition :=
  jsSort (compareCompetitions column ascending) (spreadCopy data)

/-- Contents of the source array object after a sortCompetitions call: the
in-place sort inside the function targets only the fresh spread copy, so
the array passed in still holds its original contents. -/
def sortCompetitions_sourceAfter (data : List Competition) (_column : String)
    (_ascending : Bool) : List Competition := data

/-- Per-table sort state: active column and direction, as in the global
sortState object of the all-competitions script. -/
structure SortState where
  column : String
  ascending : Bool
deriving DecidableEq

/-- State-update portion of sortTable1 (sortTable2 and sortTable3 are
identical on their own state): reselecting the active column flips the
direction, selecting another column activates it ascending. -/
def sortTable1_select (s : SortState) (column : String) : SortState :=
  if s.column = column then { s with ascending := !s.ascending }
  else { column := column, ascending := true }

/-- One rendered table cell: its colspan attribute and its text content. -/
structure TableCell where
  colSpan : Nat
  text : String
deriving DecidableEq

/-- Row content produced by populateTable1 (the full shape: id, name,
location, county and the four year columns). A missing or empty record
array yields the single placeholder row spanning all 8 columns. -/
def populateTable1Rows (competitions : Option (List Competition)) :
    List (List TableCell) :=
  match competitions with
  | none => [[⟨8, "No competitions found"⟩]]
  | some [] => [[⟨8, "No competitions found"⟩]]
  | some comps =>
    comps.map (fun c =>
      [⟨1, c.id.getD ""⟩, ⟨1, c.name.getD ""⟩, ⟨1, c.location.getD ""⟩,
       ⟨1, c.county.getD ""⟩, ⟨1, c.year_2026.getD ""⟩,
       ⟨1, c.year_2025.getD ""⟩, ⟨1, c.year_2024.getD ""⟩,
       ⟨1, c.year_2023.getD ""⟩])

/-- Row content produced by populateTable2 (the reduced shape: name,
location and the four year columns; placeholder spans 6 columns). -/
def populateTable2Rows (competitions : Option (List Competition)) :
    List (List TableCell) :=
  match competitions with
  | none => [[⟨6, "No competitions found"⟩]]
  | some [] => [[⟨6, "No competitions found"⟩]]
  | some comps =>
    comps.map (fun c =>
      [⟨1, c.name.getD ""⟩, ⟨1, c.location.getD ""⟩,
       ⟨1, c.year_2026.getD ""⟩, ⟨1, c.year_2025.getD ""⟩,
       ⟨1, c.year_2024.getD ""⟩, ⟨1, c.year_2023.getD ""⟩])

/-- Row content produced by populateTable3 (the minimal shape: name and the
four year columns; placeholder spans 5 columns). -/
def populateTable3Rows (competitions : Option (List Competition)) :
    List (List TableCell) :=
  match competitions with
  | none => [[⟨5, "No competitions found"⟩]]
  | some [] => [[⟨5, "No competitions found"⟩]]
  | some comps =>
    comps.map (fun c =>
      [⟨1, c.name.getD ""⟩, ⟨1, c.year_2026.getD ""⟩,
       ⟨1, c.year_2025.getD ""⟩, ⟨1, c.year_2024.getD ""⟩,
       ⟨1, c.year_2023.getD ""⟩])

/-- Calendar date object of the bad-news and versions documents. -/
structure NewsDate where
  year : Nat
  month : Nat
  day : Nat
deriving DecidableEq

/-- dateToNumber from the bad-news script: year times 10000 plus month
times 100 plus day. -/
def dateToNumber (d : NewsDate) : Nat :=
  d.year * 10000 + d.month * 100 + d.day

/-- One entry of the bad-news document. -/
structure BadNews where
  original_date : NewsDate
  competition : String
  status : String
  new_date : Option NewsDate
deriving DecidableEq

/-- Ordering produced inside update_bad_news_table: the fetched bad_news
array sorted by original date descending with the subtraction comparator. -/
def update_bad_news_table_sorted (bad_news : List BadNews) : List BadNews :=
  jsSort (fun a b =>
    (dateToNumber b.original_date : Int) - (dateToNumber a.original_date : Int))
    bad_news

/-- Contents of the fetched bad_news array object after
update_bad_news_table runs: the call sorts that very array in place
(Array.prototype.sort mutates its receiver and no copy is taken), so the
array afterwards holds the descending ordering. -/
def update_bad_news_table_newsAfter (bad_news : List BadNews) : List BadNews :=
  update_bad_news_table_sorted bad_news

/-- One entry of the versions document. -/
structure VersionEntry where
  version_id : String
  date : NewsDate
deriving DecidableEq

/-- JavaScript greater-than on two parseInt results: any comparison
involving NaN is false. -/
def jsGt (a b : Option Int) : Bool :=
  match a, b with
  | some x, some y => decide (y < x)
  | _, _ => false

/-- Reducer body of loadLastUpdateDate: keep the incoming entry only when
its parsed identifier is strictly greater than that of the current best. -/
def versionStep (max version : VersionEntry) : VersionEntry :=
  if jsGt (parseIntJS version.version_id) (parseIntJS max.version_id)
  then version else max

/-- The latestVersion value computed by loadLastUpdateDate:
Array.prototype.reduce with no initial value starts from the first element
(and throws on an empty array, modelled as none). -/
def latestVersion (versions : List VersionEntry) : Option VersionEntry :=
  match versions with
  | [] => none
  | v :: vs => some (vs.foldl versionStep v)

/-- The data driving the two badges loadLastUpdateDate writes: the version
number shown is the identifier of latestVersion and the displayed build
date is formatted from the date of that same entry. -/
def loadLastUpdateDate_displayed (versions : List VersionEntry) :
    Option (String × NewsDate) :=
  (latestVersion versions).map (fun v => (v.version_id, v.date))

/-- Competitions-by-type object of the statistics document. -/
structure TypeBreakdown where
  trail : Nat
  road : Nat
  other : Nat
deriving DecidableEq

/-- The statistics object of the yearly statistics document: five maps
keyed by year. A year key that is absent is none; the county value for a
present year is itself an object read by county-code key. -/
structure StatisticsDoc where
  total_competitions : Nat → Option Nat
  competitions_by_month : Nat → Option (List Nat)
  competitions_by_type : Nat → Option TypeBreakdown
  competitions_by_county : Nat → Option (String → Option Nat)
  competitions_by_towns : Nat → Option (List (String × Nat))

/-- The five chart-ready views update_charts_by_year hands to the drawing
calls. County pairs carry Option values: a present county key yields its
count, an absent one yields the undefined read of the source (which the
chart engine treats as a null data point, not as 0). -/
structure ChartViews where
  total : Nat
  months : List Nat
  type : TypeBreakdown
  county : List (String × Option Nat)
  towns : List (String × Nat)
deriving DecidableEq

/-- Truthiness of a looked-up number: an absent key is undefined (falsy)
and the number 0 is falsy as well. -/
def jsTruthyNum (v : Option Nat) : Bool :=
  match v with
  | some n => n != 0
  | none => false

/-- Total-competitions extraction of update_charts_by_year: the stored
number when the year key is truthy, else 0 (identical outcome either way
when the stored number is 0). -/
def extract_total (doc : StatisticsDoc) (year : Nat) : Nat :=
  if jsTruthyNum (doc.total_competitions year)
  then (doc.total_competitions year).getD 0
  else 0

/-- Month-histogram extraction of update_charts_by_year: the stored array
when the year key is present (arrays are truthy), else twelve zeros. -/
def extract_months (doc : StatisticsDoc) (year : Nat) : List Nat :=
  match doc.competitions_by_month year with
  | some a => a
  | none => [0, 0, 0, 0, 0, 0, 0, 0, 0, 0, 0, 0]

/-- Type-breakdown extraction of update_charts_by_year: the stored object
when the year key is present, else the all-zero object. -/
def extract_type (doc : StatisticsDoc) (year : Nat) : TypeBreakdown :=
  match doc.competitions_by_type year with
  | some t => t
  | none => { trail := 0, road := 0, other := 0 }

/-- County-series extraction of update_charts_by_year. When the year key is
present the series lists the 42 map keys in the fixed order of the source,
each paired with the raw property read of its county code (none when that
code is absent); when the year key is absent the series pairs every map key
with the literal 0. -/
def extract_county (doc : StatisticsDoc) (year : Nat) :
    List (String × Option Nat) :=
  match doc.competitions_by_county year with
  | some m =>
    [("ro-ab", m "AB"), ("ro-ar", m "AR"), ("ro-ag", m "AG"), ("ro-bi", m "B"),
     ("ro-bc", m "BC"), ("ro-bh", m "BH"), ("ro-bn", m "BN"), ("ro-bt", m "BT"),
     ("ro-br", m "BR"), ("ro-bv", m "BV"), ("ro-bz", m "BZ"), ("ro-cl", m "CL"),
     ("ro-cs", m "CS"), ("ro-cj", m "CJ"), ("ro-ct", m "CT"), ("ro-cv", m "CV"),
     ("ro-db", m "DB"), ("ro-dj", m "DJ"), ("ro-gl", m "GL"), ("ro-gr", m "GR"),
     ("ro-gj", m "GJ"), ("ro-hr", m "HR"), ("ro-hd", m "HD"), ("ro-il", m "IL"),
     ("ro-is", m "IS"), ("ro-if", m "IF"), ("ro-mm", m "MM"), ("ro-mh", m "MH"),
     ("ro-ms", m "MS"), ("ro-nt", m "NT"), ("ro-ot", m "OT"), ("ro-ph", m "PH"),
     ("ro-sj", m "SJ"), ("ro-sm", m "SM"), ("ro-sb", m "SB"), ("ro-sv", m "SV"),
     ("ro-tr", m "TR"), ("ro-tm", m "TM"), ("ro-tl", m "TL"), ("ro-vl", m "VL"),
     ("ro-vs", m "VS"), ("ro-vn", m "VN")]
  | none =>
    [("ro-ab", some 0), ("ro-ar", some 0), ("ro-ag", some 0), ("ro-bi", some 0),
     ("ro-bc", some 0), ("ro-bh", some 0), ("ro-bn", some 0), ("ro-bt", some 0),
     ("ro-br", some 0), ("ro-bv", some 0), ("ro-bz", some 0), ("ro-cl", some 0),
     ("ro-cs", some 0), ("ro-cj", some 0), ("ro-ct", some 0), ("ro-cv", some 0),
     ("ro-db", some 0), ("ro-dj", some 0), ("ro-gl", some 0), ("ro-gr", some 0),
     ("ro-gj", some 0), ("ro-hr", some 0), ("ro-hd", some 0), ("ro-il", some 0),
     ("ro-is", some 0), ("ro-if", some 0), ("ro-mm", some 0), ("ro-mh", some 0),
     ("ro-ms", some 0), ("ro-nt", some 0), ("ro-ot", some 0), ("ro-ph", some 0),
     ("ro-sj", some 0), ("ro-sm", some 0), ("ro-sb", some 0), ("ro-sv", some 0),
     ("ro-tr", some 0), ("ro-tm", some 0), ("ro-tl", some 0), ("ro-vl", some 0),
     ("ro-vs", some 0), ("ro-vn", some 0)]

/-- Towns extraction of update_charts_by_year: the stored mapping when the
year key is present, else the empty mapping. -/
def extract_towns (doc : StatisticsDoc) (year : Nat) : List (String × Nat) :=
  match doc.competitions_by_towns year with
  | some t => t
  | none => []

/-- Data part of update_charts_by_year: the five chart views computed from
the statistics document for the requested year (the function then forwards
each view to its drawing call). -/
def update_charts_by_year (doc : StatisticsDoc) (year : Nat) : ChartViews :=
  { total := extract_total doc year
    months := extract_months doc year
    type := extract_type doc year
    county := extract_county doc year
    towns := extract_towns doc year }

/-- County object of the end-to-end example snapshot: AB maps to 3, B maps
to 10, every other key is absent. -/
def exampleCountyMap : String → Option Nat :=
  fun c => if c = "AB" then some 3 else if c = "B" then some 10 else none

/-- End-to-end example snapshot of the spec: the county map above stored
under year 2025 and nothing else. -/
def countyExampleDoc : StatisticsDoc :=
  { total_competitions := fun _ => none
    competitions_by_month := fun _ => none
    competitions_by_type := fun _ => none
    competitions_by_county := fun y => if y = 2025 then some exampleCountyMap else none
    competitions_by_towns := fun _ => none }

/-- Statistics document with no year at all, for the absent-year claims. -/
def emptyStatisticsDoc : StatisticsDoc :=
  { total_competitions := fun _ => none
    competitions_by_month := fun _ => none
    competitions_by_type := fun _ => none
    competitions_by_county := fun _ => none
    competitions_by_towns := fun _ => none }

/-- Numeric key the id branch of the comparator assigns to a record. -/
def idKey (a : Competition) : Int :=
  parseIntOr0 ((getCol a "id").getD "")

/-- Date value the year branch of the comparator assigns to a record. -/
def yearDateVal (column : String) (a : Competition) : Int :=
  dateToSortableNumber ((getCol a column).getD "")

/-- Concrete record with a real date in the 2025 column. -/
def cexDated : Competition :=
  ⟨none, some "A", none, none, none, some "Sat 24-Jan", none, none⟩

/-- Concrete record with no date in the 2025 column. -/
def cexUndated : Competition :=
  ⟨none, some "B", none, none, none, none, none, none⟩

/-- Two distinct records whose id keys tie (both ids absent, parsed as 0). -/
def tieA : Competition := ⟨none, some "A", none, none, none, none, none, none⟩

/-- Second record of the tying pair. -/
def tieB : Competition := ⟨none, some "B", none, none, none, none, none, none⟩

/-- Record with id 2 for the C7 witness. -/
def widA : Competition := ⟨some "2", some "X", none, none, none, none, none, none⟩

/-- Record with id 1 for the C7 witness. -/
def widB : Competition := ⟨some "1", some "Y", none, none, none, none, none, none⟩

/-- Bad-news entry dated earlier, for the mutation counterexample. -/
def newsEarly : BadNews := ⟨⟨2025, 1, 1⟩, "A", "Canceled", none⟩

/-- Bad-news entry dated later, for the mutation counterexample. -/
def newsLate : BadNews := ⟨⟨2025, 2, 1⟩, "B", "Canceled", none⟩

/-- Canonical hc-key order of the county series, exactly as the source
lists the map keys. -/
def canonicalCountyOrder : List String :=
  ["ro-ab", "ro-ar", "ro-ag", "ro-bi", "ro-bc", "ro-bh", "ro-bn", "ro-bt",
   "ro-br", "ro-bv", "ro-bz", "ro-cl", "ro-cs", "ro-cj", "ro-ct", "ro-cv",
   "ro-db", "ro-dj", "ro-gl", "ro-gr", "ro-gj", "ro-hr", "ro-hd", "ro-il",
   "ro-is", "ro-if", "ro-mm", "ro-mh", "ro-ms", "ro-nt", "ro-ot", "ro-ph",
   "ro-sj", "ro-sm", "ro-sb", "ro-sv", "ro-tr", "ro-tm", "ro-tl", "ro-vl",
   "ro-vs", "ro-vn"]

/-- Month names in table order, for quantified date-parser statements. -/
def monthNames : List String :=
  ["Jan", "Feb", "Mar", "Apr", "May", "Jun",
   "Jul", "Aug", "Sep", "Oct", "Nov", "Dec"]

/-- Version entry with identifier 3. -/
def verA : VersionEntry := ⟨"3", ⟨2025, 1, 1⟩⟩

/-- Version entry with identifier 7, the maximal one. -/
def verB : VersionEntry := ⟨"7", ⟨2025, 6, 1⟩⟩

/-- Version entry with identifier 5. -/
def verC : VersionEntry := ⟨"5", ⟨2025, 3, 1⟩⟩

lemma compare_id_true (a b : Competition) :
    compareCompetitions "id" true a b = idKey a - idKey b := by
  simp [compareCompetitions, idKey]

lemma compare_id_false (a b : Competition) :
    compareCompetitions "id" false a b = idKey b - idKey a := by
  simp [compareCompetitions, idKey]

lemma startsWithYear_ne_id {column : String} (h : startsWithYear column = true) :
    column ≠ "id" := by
  intro e
  subst e
  exact absurd h (by decide)

lemma compare_year_eq {column : String} (h : startsWithYear column = true)
    (ascending : Bool) (a b : Competition) :
    compareCompetitions column ascending a b =
      (if yearDateVal column a = 0 ∧ yearDateVal column b = 0 then 0
       else if yearDateVal column a = 0 then 1
       else if yearDateVal column b = 0 then (-1)
       else if ascending then yearDateVal column a - yearDateVal column b
       else yearDateVal column b - yearDateVal column a) := by
  have hid := startsWithYear_ne_id h
  simp [compareCompetitions, hid, h, yearDateVal]

/-- C10. Sorting never drops or duplicates a record: for every record
array, every column identifier (known or not) and both directions, the
array sortCompetitions returns is a permutation of its input, so it has the
same length and the same element multiset. -/
theorem sortCompetitions_perm :
    ∀ (data : List Competition) (column : String) (ascending : Bool),
      (sortCompetitions data column ascending).Perm data
      ∧ (sortCompetitions data column ascending).length = data.length := by
  intro data column ascending
  have hp : (sortCompetitions data column ascending).Perm data :=
    List.perm_insertionSort _ _
  exact ⟨hp, hp.length_eq⟩

/-- C4. On a year-scoped date column, in both requested directions, the
sorted output never places a record with a non-sentinel date after one
whose date parses to the sentinel 0, and the comparator returns 0 on any
two sentinel-dated records. -/
theorem sortCompetitions_sentinel_last :
    ∀ (data : List Competition) (column : String) (ascending : Bool),
      startsWithYear column = true →
      ((sortCompetitions data column ascending).Pairwise
        (fun a b => yearDateVal column a = 0 → yearDateVal column b = 0)
       ∧ ∀ a b : Competition, yearDateVal column a = 0 → yearDateVal column b = 0 →
          compareCompetitions column ascending a b = 0) := by
  intro data column ascending h
  constructor
  · have hs : List.Sorted
        (fun a b => compareCompetitions column ascending a b ≤ 0)
        (sortCompetitions data column ascending) := by
      haveI : IsTotal Competition
          (fun a b => compareCompetitions column ascending a b ≤ 0) := by
        constructor
        intro a b
        rw [compare_year_eq h, compare_year_eq h]
        split_ifs <;> omega
      haveI : IsTrans Competition
          (fun a b => compareCompetitions column ascending a b ≤ 0) := by
        constructor
        intro a b c hab hbc
        rw [compare_year_eq h] at hab hbc ⊢
        split_ifs at hab hbc ⊢ <;> omega
      exact List.sorted_insertionSort _ _
    refine hs.imp ?_
    intro a b hr h0
    by_contra hb
    rw [compare_year_eq h] at hr
    simp [h0, hb] at hr
  · intro a b ha hb
    rw [compare_year_eq h]
    simp [ha, hb]

/-- C4 witness: the sentinel-last theorem applied to a concrete two-record
array on the year_2025 column. -/
theorem sortCompetitions_sentinel_last_witness :
    startsWithYear "year_2025" = true
    ∧ ((sortCompetitions [cexUndated, cexDated] "year_2025" true).Pairwise
        (fun a b => yearDateVal "year_2025" a = 0 → yearDateVal "year_2025" b = 0)
       ∧ ∀ a b : Competition,
          yearDateVal "year_2025" a = 0 → yearDateVal "year_2025" b = 0 →
          compareCompetitions "year_2025" true a b = 0) :=
  ⟨by decide,
   sortCompetitions_sentinel_last [cexUndated, cexDated] "year_2025" true (by decide)⟩

/-- C7 counterexample: with two distinct records whose ids tie, the stable
sort keeps their original order in both directions, so the descending
result is not the reverse of the ascending result. -/
theorem sortCompetitions_id_reverse_claim_false :
    ¬ (sortCompetitions [tieA, tieB] "id" false
        = (sortCompetitions [tieA, tieB] "id" true).reverse) := by
  decide

/-- C7 amended. Sorting by the id column ascending and descending always
yields arrays of equal length with identical element multiset; and when the
parsed id keys of the records are pairwise distinct, the descending result
is exactly the reverse of the ascending result (with tying keys the stable
sort preserves input order in both directions instead). -/
theorem sortCompetitions_id_reverse_amended :
    ∀ data : List Competition,
      ((sortCompetitions data "id" true).length
          = (sortCompetitions data "id" false).length
       ∧ (sortCompetitions data "id" true).Perm (sortCompetitions data "id" false))
      ∧ (data.Pairwise (fun a b => idKey a ≠ idKey b) →
         sortCompetitions data "id" false
           = (sortCompetitions data "id" true).reverse) := by
  intro data
  have pa : (sortCompetitions data "id" true).Perm data :=
    List.perm_insertionSort _ _
  have pd : (sortCompetitions data "id" false).Perm data :=
    List.perm_insertionSort _ _
  refine ⟨⟨(pa.trans pd.symm).length_eq, pa.trans pd.symm⟩, ?_⟩
  intro hnd
  have sA : List.Sorted (fun a b => compareCompetitions "id" true a b ≤ 0)
      (sortCompetitions data "id" true) := by
    haveI : IsTotal Competition
        (fun a b => compareCompetitions "id" true a b ≤ 0) := by
      constructor
      intro a b
      rw [compare_id_true, compare_id_true]
      omega
    haveI : IsTrans Competition
        (fun a b => compareCompetitions "id" true a b ≤ 0) := by
      constructor
      intro a b c hab hbc
      rw [compare_id_true] at hab hbc ⊢
      omega
    exact List.sorted_insertionSort _ _
  have sD : List.Sorted (fun a b => compareCompetitions "id" false a b ≤ 0)
      (sortCompetitions data "id" false) := by
    haveI : IsTotal Competition
        (fun a b => compareCompetitions "id" false a b ≤ 0) := by
      constructor
      intro a b
      rw [compare_id_false, compare_id_false]
      omega
    haveI : IsTrans Competition
        (fun a b => compareCompetitions "id" false a b ≤ 0) := by
      constructor
      intro a b c hab hbc
      rw [compare_id_false] at hab hbc ⊢
      omega
    exact List.sorted_insertionSort _ _
  have neA : (sortCompetitions data "id" true).Pairwise
      (fun a b => idKey a ≠ idKey b) :=
    (pa.pairwise_iff (fun hxy => Ne.symm hxy)).mpr hnd
  have neD : (sortCompetitions data "id" false).Pairwise
      (fun a b => idKey a ≠ idKey b) :=
    (pd.pairwise_iff (fun hxy => Ne.symm hxy)).mpr hnd
  have ltA : (sortCompetitions data "id" true).Pairwise
      (fun a b => idKey a < idKey b) := by
    refine (sA.and neA).imp ?_
    intro a b hab
    have hle : compareCompetitions "id" true a b ≤ 0 := hab.1
    rw [compare_id_true] at hle
    have hne := hab.2
    omega
  have gtD : (sortCompetitions data "id" false).Pairwise
      (fun a b => idKey b < idKey a) := by
    refine (sD.and neD).imp ?_
    intro a b hab
    have hle : compareCompetitions "id" false a b ≤ 0 := hab.1
    rw [compare_id_false] at hle
    have hne := hab.2
    omega
  have revD : ((sortCompetitions data "id" false).reverse).Pairwise
      (fun a b => idKey a < idKey b) :=
    List.pairwise_reverse.mpr gtD
  have perm2 : (sortCompetitions data "id" true).Perm
      ((sortCompetitions data "id" false).reverse) :=
    (pa.trans pd.symm).trans (List.reverse_perm _).symm
  haveI : IsAntisymm Competition (fun a b => idKey a < idKey b) :=
    ⟨fun a b h1 h2 => absurd (h1.trans h2) (lt_irrefl _)⟩
  have eq1 : sortCompetitions data "id" true
      = (sortCompetitions data "id" false).reverse :=
    List.eq_of_perm_of_sorted perm2 ltA revD
  rw [eq1, List.reverse_reverse]

/-- C7 witness: with pairwise distinct id keys the descending sort is the
reverse of the ascending sort on a concrete two-record array. -/
theorem sortCompetitions_id_reverse_amended_witness :
    ([widA, widB].Pairwise (fun a b => idKey a ≠ idKey b))
    ∧ sortCompetitions [widA, widB] "id" false
        = (sortCompetitions [widA, widB] "id" true).reverse :=
  ⟨by decide, (sortCompetitions_id_reverse_amended [widA, widB]).2 (by decide)⟩

/-- C3 counterexample: update_bad_news_table sorts the fetched bad_news
array in place, so after the call on an ascending-ordered two-entry array
the array contents differ from the original snapshot. -/
theorem update_bad_news_table_mutates :
    update_bad_news_table_newsAfter [newsEarly, newsLate]
      ≠ [newsEarly, newsLate] := by
  decide

/-- C3 amended. sortCompetitions never mutates its source array (it sorts a
spread copy); update_bad_news_table, by contrast, sorts the fetched
bad_news array in place: afterwards that array holds a permutation of the
snapshot ordered by original date descending, which differs from the
snapshot whenever it was not already in that order. -/
theorem sort_mutation_amended :
    (∀ (data : List Competition) (column : String) (ascending : Bool),
       sortCompetitions_sourceAfter data column ascending = data)
    ∧ (∀ news : List BadNews,
       (update_bad_news_table_newsAfter news).Perm news
       ∧ (update_bad_news_table_newsAfter news).Pairwise
           (fun a b => dateToNumber b.original_date ≤ dateToNumber a.original_date)) := by
  constructor
  · intro data column ascending
    rfl
  · intro news
    constructor
    · exact List.perm_insertionSort _ _
    · have hs : List.Sorted
          (fun a b : BadNews =>
            (dateToNumber b.original_date : Int) - (dateToNumber a.original_date : Int) ≤ 0)
          (update_bad_news_table_newsAfter news) := by
        haveI : IsTotal BadNews
            (fun a b =>
              (dateToNumber b.original_date : Int) - (dateToNumber a.original_date : Int) ≤ 0) := by
          constructor
          intro a b
          omega
        haveI : IsTrans BadNews
            (fun a b =>
              (dateToNumber b.original_date : Int) - (dateToNumber a.original_date : Int) ≤ 0) := by
          constructor
          intro a b c hab hbc
          omega
        exact List.sorted_insertionSort _ _
      refine hs.imp ?_
      intro a b hab
      omega

/-- C6 counterexample: from the state (name, descending), selecting the
name column twice leaves the flag descending, not ascending. -/
theorem sortTable1_select_twice_claim_false :
    ¬ ((sortTable1_select (sortTable1_select ⟨"name", false⟩ "name") "name").ascending
        = true) := by
  decide

/-- C6 amended. Selecting the active column flips the direction and keeps
the column; selecting a different column activates it ascending; selecting
the active column twice returns the state to its original value (hence to
ascending only when it was ascending before, as in the initial state). -/
theorem sortTable1_select_amended :
    ∀ (s : SortState) (column : String),
      (s.column = column → sortTable1_select s column = ⟨column, !s.ascending⟩)
      ∧ (s.column ≠ column → sortTable1_select s column = ⟨column, true⟩)
      ∧ (s.column = column →
          sortTable1_select (sortTable1_select s column) column = s) := by
  intro s column
  obtain ⟨sc, sa⟩ := s
  refine ⟨?_, ?_, ?_⟩
  · intro h
    simp only at h
    subst h
    simp [sortTable1_select]
  · intro h
    simp only at h
    simp [sortTable1_select, h]
  · intro h
    simp only at h
    subst h
    simp [sortTable1_select]

/-- C6 witness: the amended toggle law applied at the initial state with
column name and at a fresh column id. -/
theorem sortTable1_select_amended_witness :
    ((⟨"name", true⟩ : SortState).column = "name"
      ∧ sortTable1_select ⟨"name", true⟩ "name" = ⟨"name", !true⟩)
    ∧ ((⟨"name", true⟩ : SortState).column ≠ "id"
      ∧ sortTable1_select ⟨"name", true⟩ "id" = ⟨"id", true⟩)
    ∧ sortTable1_select (sortTable1_select ⟨"name", true⟩ "name") "name"
        = ⟨"name", true⟩ :=
  ⟨⟨rfl, (sortTable1_select_amended ⟨"name", true⟩ "name").1 rfl⟩,
   ⟨by decide, (sortTable1_select_amended ⟨"name", true⟩ "id").2.1 (by decide)⟩,
   (sortTable1_select_amended ⟨"name", true⟩ "name").2.2 rfl⟩

/-- C8. Each table shape renders an empty or missing record array as
exactly one placeholder row whose column span is the table column count:
8 for the full table, 6 for the reduced table, 5 for the minimal table. -/
theorem populateTables_empty_placeholder :
    (populateTable1Rows none = [[⟨8, "No competitions found"⟩]]
     ∧ populateTable1Rows (some []) = [[⟨8, "No competitions found"⟩]])
    ∧ (populateTable2Rows none = [[⟨6, "No competitions found"⟩]]
     ∧ populateTable2Rows (some []) = [[⟨6, "No competitions found"⟩]])
    ∧ (populateTable3Rows none = [[⟨5, "No competitions found"⟩]]
     ∧ populateTable3Rows (some []) = [[⟨5, "No competitions found"⟩]]) :=
  ⟨⟨rfl, rfl⟩, ⟨rfl, rfl⟩, ⟨rfl, rfl⟩⟩

/-- C1 counterexample: on the example snapshot with year 2025 present, the
county series has 42 pairs, not 41, and its second pair carries the
undefined read of the absent AR key rather than 0. -/
theorem update_charts_by_year_county_claim_false :
    (update_charts_by_year countyExampleDoc 2025).county.length = 42
    ∧ ¬ ((update_charts_by_year countyExampleDoc 2025).county.length = 41)
    ∧ (update_charts_by_year countyExampleDoc 2025).county.get? 1
        = some ("ro-ar", none) := by
  decide

/-- C1 amended. On the example snapshot with year 2025 present, the county
series is the 42 canonical map keys in fixed order, with ro-ab paired with
3, ro-bi paired with 10 (mapped from key B) and every other pair carrying
no value (the undefined read of an absent county key); and for every
snapshot in which the requested year is present with county object m, the
series is exactly the 42 canonical map keys in the canonical order, each
paired with the raw read of its own county code from m (ro-ab with the AB
read, ro-bi with the B read, and so on). -/
theorem update_charts_by_year_county_amended :
    ((update_charts_by_year countyExampleDoc 2025).county.length = 42
     ∧ (update_charts_by_year countyExampleDoc 2025).county.map Prod.fst
         = canonicalCountyOrder
     ∧ ("ro-ab", some 3) ∈ (update_charts_by_year countyExampleDoc 2025).county
     ∧ ("ro-bi", some 10) ∈ (update_charts_by_year countyExampleDoc 2025).county
     ∧ (∀ p ∈ (update_charts_by_year countyExampleDoc 2025).county,
          p.1 ≠ "ro-ab" → p.1 ≠ "ro-bi" → p.2 = none))
    ∧ (∀ (doc : StatisticsDoc) (year : Nat) (m : String → Option Nat),
        doc.competitions_by_county year = some m →
        (update_charts_by_year doc year).county
          = [("ro-ab", m "AB"), ("ro-ar", m "AR"), ("ro-ag", m "AG"),
             ("ro-bi", m "B"), ("ro-bc", m "BC"), ("ro-bh", m "BH"),
             ("ro-bn", m "BN"), ("ro-bt", m "BT"), ("ro-br", m "BR"),
             ("ro-bv", m "BV"), ("ro-bz", m "BZ"), ("ro-cl", m "CL"),
             ("ro-cs", m "CS"), ("ro-cj", m "CJ"), ("ro-ct", m "CT"),
             ("ro-cv", m "CV"), ("ro-db", m "DB"), ("ro-dj", m "DJ"),
             ("ro-gl", m "GL"), ("ro-gr", m "GR"), ("ro-gj", m "GJ"),
             ("ro-hr", m "HR"), ("ro-hd", m "HD"), ("ro-il", m "IL"),
             ("ro-is", m "IS"), ("ro-if", m "IF"), ("ro-mm", m "MM"),
             ("ro-mh", m "MH"), ("ro-ms", m "MS"), ("ro-nt", m "NT"),
             ("ro-ot", m "OT"), ("ro-ph", m "PH"), ("ro-sj", m "SJ"),
             ("ro-sm", m "SM"), ("ro-sb", m "SB"), ("ro-sv", m "SV"),
             ("ro-tr", m "TR"), ("ro-tm", m "TM"), ("ro-tl", m "TL"),
             ("ro-vl", m "VL"), ("ro-vs", m "VS"), ("ro-vn", m "VN")]) := by
  constructor
  · decide
  · intro doc year m h
    simp [update_charts_by_year, extract_county, h]

/-- C1 witness: the general key-to-code pairing law applied to the example
snapshot and year 2025, hypothesis discharged by rfl. -/
theorem update_charts_by_year_county_amended_witness :
    countyExampleDoc.competitions_by_county 2025 = some exampleCountyMap
    ∧ (update_charts_by_year countyExampleDoc 2025).county
        = [("ro-ab", exampleCountyMap "AB"), ("ro-ar", exampleCountyMap "AR"),
           ("ro-ag", exampleCountyMap "AG"), ("ro-bi", exampleCountyMap "B"),
           ("ro-bc", exampleCountyMap "BC"), ("ro-bh", exampleCountyMap "BH"),
           ("ro-bn", exampleCountyMap "BN"), ("ro-bt", exampleCountyMap "BT"),
           ("ro-br", exampleCountyMap "BR"), ("ro-bv", exampleCountyMap "BV"),
           ("ro-bz", exampleCountyMap "BZ"), ("ro-cl", exampleCountyMap "CL"),
           ("ro-cs", exampleCountyMap "CS"), ("ro-cj", exampleCountyMap "CJ"),
           ("ro-ct", exampleCountyMap "CT"), ("ro-cv", exampleCountyMap "CV"),
           ("ro-db", exampleCountyMap "DB"), ("ro-dj", exampleCountyMap "DJ"),
           ("ro-gl", exampleCountyMap "GL"), ("ro-gr", exampleCountyMap "GR"),
           ("ro-gj", exampleCountyMap "GJ"), ("ro-hr", exampleCountyMap "HR"),
           ("ro-hd", exampleCountyMap "HD"), ("ro-il", exampleCountyMap "IL"),
           ("ro-is", exampleCountyMap "IS"), ("ro-if", exampleCountyMap "IF"),
           ("ro-mm", exampleCountyMap "MM"), ("ro-mh", exampleCountyMap "MH"),
           ("ro-ms", exampleCountyMap "MS"), ("ro-nt", exampleCountyMap "NT"),
           ("ro-ot", exampleCountyMap "OT"), ("ro-ph", exampleCountyMap "PH"),
           ("ro-sj", exampleCountyMap "SJ"), ("ro-sm", exampleCountyMap "SM"),
           ("ro-sb", exampleCountyMap "SB"), ("ro-sv", exampleCountyMap "SV"),
           ("ro-tr", exampleCountyMap "TR"), ("ro-tm", exampleCountyMap "TM"),
           ("ro-tl", exampleCountyMap "TL"), ("ro-vl", exampleCountyMap "VL"),
           ("ro-vs", exampleCountyMap "VS"), ("ro-vn", exampleCountyMap "VN")] :=
  ⟨rfl,
   update_charts_by_year_county_amended.2 countyExampleDoc 2025 exampleCountyMap rfl⟩

/-- C5 counterexample: for a year absent from the snapshot the county
series has 42 all-zero pairs, not 41. -/
theorem update_charts_by_year_absent_year_claim_false :
    (update_charts_by_year emptyStatisticsDoc 2030).county.length = 42
    ∧ ¬ ((update_charts_by_year emptyStatisticsDoc 2030).county.length = 41) := by
  decide

/-- C5 amended. For every snapshot and every year absent from it, the
adapter produces total 0, a 12-length all-zero month array, the all-zero
type breakdown, a county series of 42 pairs each paired with 0, and an
empty towns mapping. -/
theorem update_charts_by_year_absent_year_amended :
    ∀ (doc : StatisticsDoc) (year : Nat),
      doc.total_competitions year = none →
      doc.competitions_by_month year = none →
      doc.competitions_by_type year = none →
      doc.competitions_by_county year = none →
      doc.competitions_by_towns year = none →
      ((update_charts_by_year doc year).total = 0
       ∧ (update_charts_by_year doc year).months = List.replicate 12 0
       ∧ (update_charts_by_year doc year).type = ⟨0, 0, 0⟩
       ∧ (update_charts_by_year doc year).county.length = 42
       ∧ (∀ p ∈ (update_charts_by_year doc year).county, p.2 = some 0)
       ∧ (update_charts_by_year doc year).towns = []) := by
  intro doc year h1 h2 h3 h4 h5
  refine ⟨?_, ?_, ?_, ?_, ?_, ?_⟩
  · simp [update_charts_by_year, extract_total, h1, jsTruthyNum]
  · simp [update_charts_by_year, extract_months, h2]
  · simp [update_charts_by_year, extract_type, h3]
  · simp [update_charts_by_year, extract_county, h4]
  · simp [update_charts_by_year, extract_county, h4]
  · simp [update_charts_by_year, extract_towns, h5]

/-- C5 witness: the absent-year theorem applied to the empty snapshot at
year 2030. -/
theorem update_charts_by_year_absent_year_amended_witness :
    (emptyStatisticsDoc.total_competitions 2030 = none
     ∧ emptyStatisticsDoc.competitions_by_month 2030 = none
     ∧ emptyStatisticsDoc.competitions_by_type 2030 = none
     ∧ emptyStatisticsDoc.competitions_by_county 2030 = none
     ∧ emptyStatisticsDoc.competitions_by_towns 2030 = none)
    ∧ ((update_charts_by_year emptyStatisticsDoc 2030).total = 0
       ∧ (update_charts_by_year emptyStatisticsDoc 2030).months = List.replicate 12 0
       ∧ (update_charts_by_year emptyStatisticsDoc 2030).type = ⟨0, 0, 0⟩
       ∧ (update_charts_by_year emptyStatisticsDoc 2030).county.length = 42
       ∧ (∀ p ∈ (update_charts_by_year emptyStatisticsDoc 2030).county, p.2 = some 0)
       ∧ (update_charts_by_year emptyStatisticsDoc 2030).towns = []) :=
  ⟨⟨rfl, rfl, rfl, rfl, rfl⟩,
   update_charts_by_year_absent_year_amended emptyStatisticsDoc 2030 rfl rfl rfl rfl rfl⟩

/-- C2 counterexample: a string whose month name is unrecognized does not
return the sentinel 0; the month contributes 0 and the day survives, so the
sample from the spec evaluates to 5. -/
theorem dateToSortableNumber_unknown_month_not_zero :
    dateToSortableNumber "Xxx 5-Zzz" = 5
    ∧ ¬ (dateToSortableNumber "Xxx 5-Zzz" = 0) := by
  decide

/-- C2 amended. The parser returns month times 100 plus day for every
well-shaped day-dash-month string over the table (checked for all days 0
to 31 and all twelve months); it returns 0 on the empty string and on
malformed strings (wrong number of space or dash parts); but an
unrecognized month name only zeroes the month contribution, leaving the
day, so the unknown-month sample evaluates to the day 5, not to 0. -/
theorem dateToSortableNumber_amended :
    (dateToSortableNumber "" = 0
     ∧ dateToSortableNumber "Sat 24-Jan" = 124
     ∧ dateToSortableNumber "Xxx 5-Zzz" = 5)
    ∧ (dateToSortableNumber "Sat" = 0
     ∧ dateToSortableNumber "Sat 24-Jan-2025" = 0
     ∧ dateToSortableNumber "a b c" = 0
     ∧ dateToSortableNumber "24-Jan" = 0)
    ∧ (∀ (d : Fin 32) (i : Fin 12),
        dateToSortableNumber ("Sat " ++ Nat.repr d.val ++ "-" ++ monthNames.getD i.val "")
          = ((i.val : Int) + 1) * 100 + (d.val : Int))
    ∧ (∀ d : Fin 32,
        dateToSortableNumber ("Xxx " ++ Nat.repr d.val ++ "-Zzz") = (d.val : Int)) := by
  refine ⟨by decide, by decide, by decide, by decide⟩

lemma foldl_versionStep_spec :
    ∀ (vs : List VersionEntry) (acc : VersionEntry) (ma : Int),
      parseIntJS acc.version_id = some ma →
      (∀ w ∈ vs, (parseIntJS w.version_id).isSome = true) →
      (vs.foldl versionStep acc = acc ∨ vs.foldl versionStep acc ∈ vs)
      ∧ ∃ mr : Int,
          parseIntJS (vs.foldl versionStep acc).version_id = some mr
          ∧ ma ≤ mr
          ∧ ∀ w ∈ vs, ∀ k : Int, parseIntJS w.version_id = some k → k ≤ mr := by
  intro vs
  induction vs with
  | nil =>
    intro acc ma hacc _
    exact ⟨Or.inl rfl, ma, hacc, le_refl ma, by simp⟩
  | cons w ws ih =>
    intro acc ma hacc hall
    have hw : (parseIntJS w.version_id).isSome = true := hall w (by simp)
    obtain ⟨kw, hkw⟩ : ∃ k, parseIntJS w.version_id = some k := by
      cases hpw : parseIntJS w.version_id with
      | none => rw [hpw] at hw; simp at hw
      | some k => exact ⟨k, rfl⟩
    have hall' : ∀ x ∈ ws, (parseIntJS x.version_id).isSome = true :=
      fun x hx => hall x (by simp [hx])
    rw [List.foldl_cons]
    by_cases hgt : ma < kw
    · have hstep : versionStep acc w = w := by
        simp [versionStep, jsGt, hkw, hacc, hgt]
      rw [hstep]
      obtain ⟨hmem, mr, hmr, hle, hbound⟩ := ih w kw hkw hall'
      refine ⟨?_, mr, hmr, le_of_lt (lt_of_lt_of_le hgt hle), ?_⟩
      · rcases hmem with h | h
        · exact Or.inr (by simp [h])
        · exact Or.inr (by simp [h])
      · intro x hx k hk
        rcases List.mem_cons.mp hx with rfl | hx'
        · have hkkw : k = kw := by
            rw [hk] at hkw
            exact Option.some.inj hkw
          omega
        · exact hbound x hx' k hk
    · have hstep : versionStep acc w = acc := by
        simp [versionStep, jsGt, hkw, hacc, hgt]
      rw [hstep]
      obtain ⟨hmem, mr, hmr, hle, hbound⟩ := ih acc ma hacc hall'
      refine ⟨?_, mr, hmr, hle, ?_⟩
      · rcases hmem with h | h
        · exact Or.inl h
        · exact Or.inr (by simp [h])
      · intro x hx k hk
        rcases List.mem_cons.mp hx with rfl | hx'
        · have hkkw : k = kw := by
            rw [hk] at hkw
            exact Option.some.inj hkw
          omega
        · exact hbound x hx' k hk

/-- C9. On every non-empty versions list whose identifiers all parse as
integers, the reduce inside loadLastUpdateDate selects an entry of the list
whose parsed identifier is maximal, and the displayed build date and
version number are taken from that entry. -/
theorem latestVersion_max :
    ∀ versions : List VersionEntry,
      versions ≠ [] →
      (∀ w ∈ versions, (parseIntJS w.version_id).isSome = true) →
      ∃ v : VersionEntry, ∃ m : Int,
        latestVersion versions = some v
        ∧ v ∈ versions
        ∧ parseIntJS v.version_id = some m
        ∧ (∀ w ∈ versions, ∀ k : Int, parseIntJS w.version_id = some k → k ≤ m)
        ∧ loadLastUpdateDate_displayed versions = some (v.version_id, v.date) := by
  intro versions hne hall
  match versions, hne with
  | v :: vs, _ =>
    have hv : (parseIntJS v.version_id).isSome = true := hall v (by simp)
    obtain ⟨ma, hma⟩ : ∃ k, parseIntJS v.version_id = some k := by
      cases hpv : parseIntJS v.version_id with
      | none => rw [hpv] at hv; simp at hv
      | some k => exact ⟨k, rfl⟩
    have hall' : ∀ x ∈ vs, (parseIntJS x.version_id).isSome = true :=
      fun x hx => hall x (by simp [hx])
    obtain ⟨hmem, mr, hmr, hle, hbound⟩ := foldl_versionStep_spec vs v ma hma hall'
    refine ⟨vs.foldl versionStep v, mr, rfl, ?_, hmr, ?_, rfl⟩
    · rcases hmem with h | h
      · rw [h]; simp
      · simp [h]
    · intro w hw k hk
      rcases List.mem_cons.mp hw with rfl | hw'
      · have hkma : k = ma := by
          rw [hk] at hma
          exact Option.some.inj hma
        omega
      · exact hbound w hw' k hk

/-- C9 witness: the argmax theorem applied to a concrete three-entry
versions list. -/
theorem latestVersion_max_witness :
    ([verA, verB, verC] ≠ ([] : List VersionEntry))
    ∧ (∀ w ∈ [verA, verB, verC], (parseIntJS w.version_id).isSome = true)
    ∧ ∃ v : VersionEntry, ∃ m : Int,
        latestVersion [verA, verB, verC] = some v
        ∧ v ∈ [verA, verB, verC]
        ∧ parseIntJS v.version_id = some m
        ∧ (∀ w ∈ [verA, verB, verC], ∀ k : Int,
            parseIntJS w.version_id = some k → k ≤ m)
        ∧ loadLastUpdateDate_displayed [verA, verB, verC]
            = some (v.version_id, v.date) :=
  ⟨by decide, by decide,
   latestVersion_max [verA, verB, verC] (by decide) (by decide)⟩
